import Mathlib

/-!
Verification of the session/link logic of `bot.py`: the SQLite-backed
session store, the `/upload_photo` Flask handler, and the Telegram photo
handler with its remote-upload resolution and local-fallback path.

Shallow embedding conventions:
* the `user_sessions` table is a list of rows; `INSERT OR REPLACE` on the
  `session_id` primary key deletes the conflicting row and appends the new one;
* the HTTP request body is modelled after `request.get_json(silent=True)` as
  `Option Body` where `Body` is a JSON object with string values (`none` =
  unparseable body); Python truthiness of a dict is non-emptiness and of a
  string is being non-empty;
* `base64.b64decode` (CPython, `validate=False`) and the regular expression
  `data:(image/[^;]+);base64,(.*)$` are modelled character by character;
* effects (DB writes, `bot.send_photo` calls) are returned as explicit logs;
  the outcome of the one fallible send is an `Option String` input
  (`some e` = the call raised `e`).
-/

namespace ImageShareBot

/-- A row of the `user_sessions` table:
`(user_id INTEGER, session_id TEXT PRIMARY KEY, original_image TEXT)`. -/
structure SessionRow where
  user_id : Int
  session_id : String
  original_image : String
deriving DecidableEq, Repr

/-- The `user_sessions` table contents. -/
abbrev Store := List SessionRow

/-- SQLite `INSERT OR REPLACE INTO user_sessions (user_id, session_id, original_image)
VALUES (?, ?, ?)`: SQLite deletes any row conflicting on the `session_id`
primary key and inserts the new row. -/
def putRow (store : Store) (row : SessionRow) : Store :=
  store.filter (fun r => r.session_id != row.session_id) ++ [row]

/-- Point lookup of the row with the given `session_id` (first match; the
primary key makes it unique). -/
def getRow (store : Store) (id : String) : Option SessionRow :=
  store.find? (fun r => r.session_id == id)

/-- The SessionStore `get` contract: `session_id -> (user_id, image_ref)`,
realised as a point lookup on the `user_sessions` table. -/
def getSession (store : Store) (id : String) : Option (Int × String) :=
  (getRow store id).map (fun r => (r.user_id, r.original_image))

/-- The query `SELECT user_id FROM user_sessions WHERE session_id = ?` plus `fetchone`. -/
def selectUserId (store : Store) (id : String) : Option Int :=
  (getRow store id).map (fun r => r.user_id)

/-! The model of `base64.b64decode` (CPython `binascii.a2b_base64`, non-strict mode). -/

/-- Index of a character in the standard base64 alphabet, `none` for
characters outside it. -/
def b64val (c : Char) : Option Nat :=
  if 'A' ≤ c ∧ c ≤ 'Z' then some (c.toNat - 'A'.toNat)
  else if 'a' ≤ c ∧ c ≤ 'z' then some (c.toNat - 'a'.toNat + 26)
  else if '0' ≤ c ∧ c ≤ '9' then some (c.toNat - '0'.toNat + 52)
  else if c = '+' then some 62
  else if c = '/' then some 63
  else none

/-- Three output bytes of a full base64 quad. -/
def emit3 (v0 v1 v2 v3 : Nat) : List Nat :=
  [v0 * 4 + v1 / 16, v1 % 16 * 16 + v2 / 4, v2 % 4 * 64 + v3]

/-- Two output bytes of a three-character group closed by padding. -/
def emit2 (v0 v1 v2 : Nat) : List Nat :=
  [v0 * 4 + v1 / 16, v1 % 16 * 16 + v2 / 4]

/-- One output byte of a two-character group closed by two padding signs. -/
def emit1 (v0 v1 : Nat) : List Nat :=
  [v0 * 4 + v1 / 16]

/-- The `binascii.a2b_base64` loop in non-strict mode. State: the buffered
quad values (at most three), the running pad count, and the total number of
data characters consumed (used in the final error message). Characters
outside the alphabet are skipped; a pad sign is ignored while fewer than two
quad characters are buffered, and terminates the decode once the quad
position plus the pad count reaches four. -/
def b64core : List Char → List Nat → Nat → Nat → Except String (List Nat)
  | [], quad, _, count =>
    match quad with
    | [] => .ok []
    | [_] => .error ("Invalid base64-encoded string: number of data characters ("
        ++ toString count ++ ") cannot be 1 more than a multiple of 4")
    | _ => .error "Incorrect padding"
  | c :: cs, quad, pads, count =>
    if c = '=' then
      match quad with
      | [v0, v1, v2] => .ok (emit2 v0 v1 v2)
      | [v0, v1] =>
        if pads + 1 ≥ 2 then .ok (emit1 v0 v1)
        else b64core cs quad (pads + 1) count
      | _ => b64core cs quad pads count
    else
      match b64val c with
      | none => b64core cs quad pads count
      | some v =>
        match quad with
        | [v0, v1, v2] => (b64core cs [] 0 (count + 1)).map (fun bs => emit3 v0 v1 v2 v ++ bs)
        | _ => b64core cs (quad ++ [v]) 0 (count + 1)

/-- Python `base64.b64decode(s)` with `validate=False`: the string is first encoded
as ASCII (a `ValueError` for any non-ASCII character), then fed to
`binascii.a2b_base64`. -/
def b64decode (s : List Char) : Except String (List Nat) :=
  if s.all (fun c => decide (c.toNat ≤ 127)) then b64core s [] 0 0
  else .error "string argument should contain only ASCII characters"

/-! The model of `re.match(r"data:(image/[^;]+);base64,(.*)$", image_data)`. -/

/-- Strip a literal character sequence from the front of a list, returning
the remainder on success. -/
def stripLit : List Char → List Char → Option (List Char)
  | [], rest => some rest
  | _ :: _, [] => none
  | l :: ls, c :: cs => if c = l then stripLit ls cs else none

/-- Split a list at its first `';'`: the characters before it (which hence
contain no `';'`, as `[^;]` demands) and the characters after it. Fails when
there is no `';'`. -/
def splitSemi : List Char → Option (List Char × List Char)
  | [] => none
  | c :: cs =>
    if c = ';' then some ([], cs)
    else (splitSemi cs).map (fun p => (c :: p.1, p.2))

/-- The `(.*)$` group (no DOTALL, no MULTILINE): `.` does not match a
newline and `$` matches at the end of the string or just before a newline
that is the last character. So the group is the whole remainder when it is
newline-free, the remainder minus a single trailing newline, and the match
fails otherwise. -/
def lastGroup (p : List Char) : Option (List Char) :=
  match p.dropWhile (fun c => c != '\n') with
  | [] => some p
  | ['\n'] => some (p.takeWhile (fun c => c != '\n'))
  | _ => none

/-- The match `re.match(r"data:(image/[^;]+);base64,(.*)$", s)`, returning the mime
group and the base64 payload group. Since `[^;]+` cannot cross a `';'`, the
mime group necessarily extends to the first `';'` after `data:image/`, which
must be followed by the literal `base64,`. -/
def parseDataUri (s : String) : Option (String × List Char) :=
  match stripLit "data:image/".toList s.toList with
  | none => none
  | some rest =>
    match splitSemi rest with
    | none => none
    | some (sub, afterSemi) =>
      if sub.isEmpty then none
      else
        match stripLit "base64,".toList afterSemi with
        | none => none
        | some payload =>
          (lastGroup payload).map (fun g => ("image/" ++ String.mk sub, g))

/-! The model of the `/upload_photo` Flask handler. -/

/-- A parsed JSON object with string values. -/
abbrev Body := List (String × String)

/-- Python `data.get(k)`: JSON object lookup (`json.loads` keeps the last binding
of a repeated key). -/
def dictGet (d : Body) (k : String) : Option String :=
  (d.reverse.find? (fun kv => kv.1 == k)).map (fun kv => kv.2)

/-- An HTTP response of the handler: `jsonify({"ok": True})` or
`jsonify({"ok": False, "error": ..., "detail"?: ...}), status`. -/
inductive HttpResp where
  | ok200
  | err (status : Nat) (msg : String) (detail : Option String)
deriving DecidableEq, Repr

/-- One `bot.send_photo(chat_id=..., photo=..., caption=...)` invocation. -/
structure SendCall where
  chat_id : Int
  photo : List Nat
  caption : String
deriving DecidableEq, Repr

/-- Result of one `/upload_photo` request: the response, the table contents
afterwards, and the log of send-photo invocations. -/
structure RelayResult where
  resp : HttpResp
  store' : Store
  calls : List SendCall
deriving DecidableEq, Repr

/-- The `/upload_photo` handler. `body` is the result of
`request.get_json(silent=True)` (`none` = unparseable); `sendFail` is the
outcome of the one `bot.send_photo` call, were it reached (`some e` = the
call raises `e`). Mirrors the source: the falsiness test `if not data`, the
falsiness test `if not session or not image_data`, the session lookup, the
regex match, the base64 decode, and the guarded send. -/
def upload_photo (store : Store) (body : Option Body) (sendFail : Option String) :
    RelayResult :=
  match body with
  | none => ⟨.err 400 "invalid json" none, store, []⟩
  | some data =>
    if data.isEmpty then ⟨.err 400 "invalid json" none, store, []⟩
    else
      match dictGet data "session", dictGet data "image" with
      | some session, some image_data =>
        if session == "" || image_data == "" then
          ⟨.err 400 "missing fields" none, store, []⟩
        else
          match selectUserId store session with
          | none => ⟨.err 404 "invalid session" none, store, []⟩
          | some user_id =>
            match parseDataUri image_data with
            | none => ⟨.err 400 "invalid image data" none, store, []⟩
            | some (_mime, b64) =>
              match b64decode b64 with
              | .error e => ⟨.err 400 "base64 decode failed" (some e), store, []⟩
              | .ok image_bytes =>
                let call : SendCall :=
                  ⟨user_id, image_bytes, "📸 New snapshot from camera link"⟩
                match sendFail with
                | some e => ⟨.err 500 "telegram send failed" (some e), store, [call]⟩
                | none => ⟨.ok200, store, [call]⟩
      | some _, none => ⟨.err 400 "missing fields" none, store, []⟩
      | none, some _ => ⟨.err 400 "missing fields" none, store, []⟩
      | none, none => ⟨.err 400 "missing fields" none, store, []⟩

/-! The model of the Telegram photo handler. -/

/-- The body of the remote host's HTTP response, as `resp.json()` sees it:
either not parseable as a JSON object (`resp.json()` or `.get` raises), or
an object whose `success` entry has the given truthiness and whose
`file_url` entry is the given string (`none` = absent). -/
inductive RespBody where
  | notJson
  | json (success : Bool) (file_url : Option String)
deriving DecidableEq, Repr

/-- Outcome of `requests.post(f"{HOST_URL_CLEAN}/home.php", files=..., timeout=30)`:
a raised transport exception (connection error, timeout) with its message,
or a response with its `resp.ok` flag and body. -/
inductive RemoteResult where
  | transportError (detail : String)
  | response (ok : Bool) (body : RespBody)
deriving DecidableEq, Repr

/-- Python truthiness of `dict.get(...)` on an optional string field. -/
def pyTruthyOpt : Option String → Bool
  | none => false
  | some s => s != ""

/-- The `UploadOutcome` triple `(uploaded_remote, image_url, upload_error)`
as left by the upload block of `image_handler`. -/
structure UploadOutcome where
  uploaded_remote : Bool
  image_url : String
  upload_error : Option String
deriving DecidableEq, Repr

/-- The upload-resolution block (lines 171–188 of `bot.py`): `image_url`
starts as the default public URL; on `resp.ok` with a JSON body carrying a
truthy `success` and a truthy `file_url` it becomes the remote URL with
`uploaded_remote = True`; any other response shape keeps the default with no
error detail; a transport exception keeps the default and records its
message. -/
def resolveUpload (default_url : String) : RemoteResult → UploadOutcome
  | .transportError e => ⟨false, default_url, some e⟩
  | .response ok body =>
    if ok then
      match body with
      | .notJson => ⟨false, default_url, none⟩
      | .json success file_url =>
        if success && pyTruthyOpt file_url then
          ⟨true, file_url.getD default_url, none⟩
        else ⟨false, default_url, none⟩
    else ⟨false, default_url, none⟩

/-- The name `filename = f"image_{update.effective_user.id}_{timestamp}.jpg"`. -/
def mkFilename (user_id timestamp : Int) : String :=
  "image_" ++ toString user_id ++ "_" ++ toString timestamp ++ ".jpg"

/-- The default `image_url = f"{HOST_URL_CLEAN}/uploads/{filename}"`, fixed before the
upload attempt and independent of its outcome. -/
def defaultPublicUrl (host filename : String) : String :=
  host ++ "/uploads/" ++ filename

/-- Python `err_text = f"\n(Upload to host failed: {upload_error})" if upload_error else ""`. -/
def errText : Option String → String
  | some e => "\n(Upload to host failed: " ++ e ++ ")"
  | none => ""

/-- The chat reply sent at the end of `image_handler`: the success wording,
the fallback wording (with its local link, assumed direct URL and error
text), or the generic `❌ Error: ...` of the handler-boundary `except`. -/
inductive Reply where
  | success (link : String)
  | fallback (localLink directUrl errDetail : String)
  | genericError (text : String)
deriving DecidableEq, Repr

/-- Result of the body of `image_handler`: the table contents afterwards,
the log of `INSERT OR REPLACE` executions, the two inline-keyboard links
(share = `short_url`, direct = `image_url`), the `uploaded_remote` flag and
the reply. -/
structure HandlerResult where
  store' : Store
  puts : List SessionRow
  short_url : String
  image_url : String
  uploaded_remote : Bool
  reply : Reply
deriving DecidableEq, Repr

/-- The body of `image_handler` (inside its `try`): build the filename and
default URL, resolve the upload, then either mint a `secrets.token_urlsafe(8)`
session with `INSERT OR REPLACE` and link `<host>/i/<short_id>` (fallback)
or reuse the remote URL for both links (remote success). `token_urlsafe`
stands for `secrets.token_urlsafe`; its argument is the byte count requested
from the CSPRNG. -/
def image_handler_core (host : String) (user_id timestamp : Int)
    (remote : RemoteResult) (token_urlsafe : Nat → String) (store : Store) :
    HandlerResult :=
  let filename := mkFilename user_id timestamp
  let image_url0 := defaultPublicUrl host filename
  let o := resolveUpload image_url0 remote
  if !o.uploaded_remote then
    let short_id := token_urlsafe 8
    let row : SessionRow := ⟨user_id, short_id, o.image_url⟩
    let short_url := host ++ "/i/" ++ short_id
    ⟨putRow store row, [row], short_url, o.image_url, false,
      .fallback short_url o.image_url (errText o.upload_error)⟩
  else
    ⟨store, [], o.image_url, o.image_url, true, .success o.image_url⟩

/-- The function `image_handler` with its handler-boundary `try`/`except`: `failure`
models an unexpected exception raised anywhere in the body (`some e` = the
exception message), which is caught and answered with the generic error
reply instead of propagating; the table is untouched in that case. -/
def image_handler (failure : Option String) (host : String) (user_id timestamp : Int)
    (remote : RemoteResult) (token_urlsafe : Nat → String) (store : Store) :
    Store × Reply :=
  match failure with
  | some e => (store, .genericError ("❌ Error: " ++ e))
  | none =>
    let r := image_handler_core host user_id timestamp remote token_urlsafe store
    (r.store', r.reply)


lemma find?_filterNe (store : Store) (id : String) :
    (store.filter (fun r => r.session_id != id)).find? (fun r => r.session_id == id) = none := by
  rw [List.find?_eq_none]
  intro r hr
  simp only [List.mem_filter, bne_iff_ne, ne_eq] at hr
  exact fun hx => hr.2 (beq_iff_eq.mp hx)

lemma getRow_putRow (store : Store) (row : SessionRow) :
    getRow (putRow store row) row.session_id = some row := by
  unfold getRow putRow
  rw [List.find?_append, find?_filterNe]
  simp

lemma putRow_collapse (store : Store) (r1 r2 : SessionRow)
    (h : r1.session_id = r2.session_id) :
    putRow (putRow store r1) r2 = putRow store r2 := by
  unfold putRow
  rw [List.filter_append, List.filter_filter]
  simp [h]

/-- C7 helper: rows sharing the new row's key after a put. -/
lemma putRow_unique_key (store : Store) (row : SessionRow) :
    (putRow store row).filter (fun r => r.session_id == row.session_id) = [row] := by
  unfold putRow
  rw [List.filter_append, List.filter_filter]
  simp

lemma putRow_nodup_keys (store : Store) (row : SessionRow)
    (h : (store.map (fun r => r.session_id)).Nodup) :
    ((putRow store row).map (fun r => r.session_id)).Nodup := by
  unfold putRow
  rw [List.map_append, List.nodup_append]
  refine ⟨h.sublist (List.Sublist.map _ (List.filter_sublist _)), List.nodup_singleton _, ?_⟩
  intro a ha hb
  simp only [List.mem_map, List.mem_filter, bne_iff_ne, ne_eq] at ha
  simp at hb
  obtain ⟨r, ⟨_, hne⟩, rfl⟩ := ha
  exact hne hb

/-- C7: `put(id, u, ref)` then `get(id)` returns `(u, ref)`; a second `put`
with the same id replaces the row (the double put collapses to the second
one, and `get` returns the new reference); after any put the rows carrying
the put key are exactly the new row, and key-uniqueness of the table is
preserved. -/
theorem session_put_get_roundtrip :
    (∀ (store : Store) (id : String) (u : Int) (ref : String),
        getSession (putRow store ⟨u, id, ref⟩) id = some (u, ref))
    ∧ (∀ (store : Store) (id : String) (u u2 : Int) (ref ref2 : String),
        putRow (putRow store ⟨u, id, ref⟩) ⟨u2, id, ref2⟩ = putRow store ⟨u2, id, ref2⟩
        ∧ getSession (putRow (putRow store ⟨u, id, ref⟩) ⟨u2, id, ref2⟩) id = some (u2, ref2))
    ∧ (∀ (store : Store) (row : SessionRow),
        (putRow store row).filter (fun r => r.session_id == row.session_id) = [row])
    ∧ (∀ (store : Store) (row : SessionRow),
        (store.map (fun r => r.session_id)).Nodup →
        ((putRow store row).map (fun r => r.session_id)).Nodup) := by
  refine ⟨?_, ?_, putRow_unique_key, putRow_nodup_keys⟩
  · intro store id u ref
    unfold getSession
    rw [getRow_putRow store ⟨u, id, ref⟩]
    rfl
  · intro store id u u2 ref ref2
    constructor
    · exact putRow_collapse store ⟨u, id, ref⟩ ⟨u2, id, ref2⟩ rfl
    · rw [putRow_collapse store ⟨u, id, ref⟩ ⟨u2, id, ref2⟩ rfl]
      unfold getSession
      rw [getRow_putRow store ⟨u2, id, ref2⟩]
      rfl

/-- C7 witness: the round trip, overwrite and key-uniqueness at concrete
inputs. -/
theorem session_put_get_roundtrip_witness :
    getSession (putRow [] ⟨1, "id1", "a"⟩) "id1" = some (1, "a")
    ∧ getSession (putRow (putRow [] ⟨1, "id1", "a"⟩) ⟨2, "id1", "b"⟩) "id1" = some (2, "b")
    ∧ ((putRow [⟨5, "x", "r"⟩] ⟨1, "id1", "a"⟩).map (fun r => r.session_id)).Nodup :=
  ⟨session_put_get_roundtrip.1 [] "id1" 1 "a",
   (session_put_get_roundtrip.2.1 [] "id1" 1 2 "a" "b").2,
   session_put_get_roundtrip.2.2.2 [⟨5, "x", "r"⟩] ⟨1, "id1", "a"⟩ (by decide)⟩

/-- C9: `/upload_photo` never modifies the session store (its only access
is the read-only `SELECT`), and the photo handler writes exactly on the
fallback path: its resulting table is the input table on remote success and
a single `INSERT OR REPLACE` of the minted row otherwise. -/
theorem relay_preserves_store :
    (∀ (store : Store) (body : Option Body) (sendFail : Option String),
        (upload_photo store body sendFail).store' = store)
    ∧ (∀ (host : String) (uid ts : Int) (remote : RemoteResult) (tok : Nat → String)
        (store : Store),
        (image_handler_core host uid ts remote tok store).store' =
          if (resolveUpload (defaultPublicUrl host (mkFilename uid ts)) remote).uploaded_remote
          then store
          else putRow store ⟨uid, tok 8,
            (resolveUpload (defaultPublicUrl host (mkFilename uid ts)) remote).image_url⟩) := by
  constructor
  · intro store body sendFail
    unfold upload_photo
    repeat' split
    all_goals rfl
  · intro host uid ts remote tok store
    unfold image_handler_core
    cases hb : (resolveUpload (defaultPublicUrl host (mkFilename uid ts)) remote).uploaded_remote <;>
      simp [hb]

lemma resolveUpload_not_remote (d : String) (r : RemoteResult)
    (h : (resolveUpload d r).uploaded_remote = false) :
    (resolveUpload d r).image_url = d := by
  cases r with
  | transportError e => rfl
  | response ok body =>
    cases ok with
    | false => rfl
    | true =>
      cases body with
      | notJson => rfl
      | json succ fu =>
        by_cases hc : (succ && pyTruthyOpt fu) = true
        · simp [resolveUpload, hc] at h
        · simp [resolveUpload, hc]

/-- C1: on any non-successful remote upload the handler performs exactly one
`INSERT OR REPLACE` storing the sender's user id, the freshly minted
`secrets.token_urlsafe(8)` token (8 bytes of entropy requested from the
CSPRNG) and the default public URL; the share link is `<host>/i/<token>` and
the direct link stays the default public URL constructed before the upload
attempt. -/
theorem fallback_mints_session (host : String) (uid ts : Int) (remote : RemoteResult)
    (tok : Nat → String) (store : Store)
    (hfail : (resolveUpload (defaultPublicUrl host (mkFilename uid ts)) remote).uploaded_remote
      = false) :
    (image_handler_core host uid ts remote tok store).puts
        = [⟨uid, tok 8, defaultPublicUrl host (mkFilename uid ts)⟩]
    ∧ (image_handler_core host uid ts remote tok store).store'
        = putRow store ⟨uid, tok 8, defaultPublicUrl host (mkFilename uid ts)⟩
    ∧ (image_handler_core host uid ts remote tok store).short_url
        = host ++ "/i/" ++ tok 8
    ∧ (image_handler_core host uid ts remote tok store).image_url
        = defaultPublicUrl host (mkFilename uid ts) := by
  have hurl := resolveUpload_not_remote _ _ hfail
  unfold image_handler_core
  simp [hfail, hurl]

/-- C1 witness: a timed-out upload at concrete inputs mints the session and
the local links. -/
theorem fallback_mints_session_witness :
    (image_handler_core "http://h" 1 2 (.transportError "timed out") (fun _ => "AbCd1234") []).puts
        = [⟨1, "AbCd1234", "http://h/uploads/image_1_2.jpg"⟩]
    ∧ (image_handler_core "http://h" 1 2 (.transportError "timed out") (fun _ => "AbCd1234") []).store'
        = putRow [] ⟨1, "AbCd1234", "http://h/uploads/image_1_2.jpg"⟩
    ∧ (image_handler_core "http://h" 1 2 (.transportError "timed out") (fun _ => "AbCd1234") []).short_url
        = "http://h" ++ "/i/" ++ "AbCd1234"
    ∧ (image_handler_core "http://h" 1 2 (.transportError "timed out") (fun _ => "AbCd1234") []).image_url
        = "http://h/uploads/image_1_2.jpg" :=
  fallback_mints_session "http://h" 1 2 (.transportError "timed out") (fun _ => "AbCd1234") []
    (by decide)

/-- C2: on a successful remote upload (2xx response, JSON body with truthy
`success` and truthy `file_url`) the share link and direct link are both the
remote URL, no `INSERT OR REPLACE` is executed, and the table is unchanged. -/
theorem remote_success_no_session (host : String) (uid ts : Int) (tok : Nat → String)
    (store : Store) (u : String) (hu : u ≠ "") :
    (image_handler_core host uid ts (.response true (.json true (some u))) tok store).short_url = u
    ∧ (image_handler_core host uid ts (.response true (.json true (some u))) tok store).image_url = u
    ∧ (image_handler_core host uid ts (.response true (.json true (some u))) tok store).puts = []
    ∧ (image_handler_core host uid ts (.response true (.json true (some u))) tok store).store'
        = store := by
  have hres : resolveUpload (defaultPublicUrl host (mkFilename uid ts))
      (.response true (.json true (some u))) = ⟨true, u, none⟩ := by
    simp [resolveUpload, pyTruthyOpt, hu]
  unfold image_handler_core
  simp [hres]

/-- C2 witness. -/
theorem remote_success_no_session_witness :
    (image_handler_core "http://h" 1 2 (.response true (.json true (some "http://r/f.jpg")))
        (fun _ => "tok") [⟨9, "old", "o"⟩]).short_url = "http://r/f.jpg"
    ∧ (image_handler_core "http://h" 1 2 (.response true (.json true (some "http://r/f.jpg")))
        (fun _ => "tok") [⟨9, "old", "o"⟩]).image_url = "http://r/f.jpg"
    ∧ (image_handler_core "http://h" 1 2 (.response true (.json true (some "http://r/f.jpg")))
        (fun _ => "tok") [⟨9, "old", "o"⟩]).puts = []
    ∧ (image_handler_core "http://h" 1 2 (.response true (.json true (some "http://r/f.jpg")))
        (fun _ => "tok") [⟨9, "old", "o"⟩]).store' = [⟨9, "old", "o"⟩] :=
  remote_success_no_session "http://h" 1 2 (fun _ => "tok") [⟨9, "old", "o"⟩] "http://r/f.jpg"
    (by decide)


lemma stripLit_self (l r : List Char) : stripLit l (l ++ r) = some r := by
  induction l with
  | nil => rfl
  | cons c cs ih => simp [stripLit, ih]

lemma stripLit_eq_append {l s r : List Char} (h : stripLit l s = some r) : s = l ++ r := by
  induction l generalizing s with
  | nil =>
    simp only [stripLit, Option.some.injEq] at h
    simp [h]
  | cons c cs ih =>
    cases s with
    | nil => simp [stripLit] at h
    | cons x xs =>
      unfold stripLit at h
      by_cases hx : x = c
      · subst hx
        simp only [if_pos rfl] at h
        simp [ih h]
      · simp [hx] at h

lemma splitSemi_append (m rest : List Char) (hm : ';' ∉ m) :
    splitSemi (m ++ ';' :: rest) = some (m, rest) := by
  induction m with
  | nil => simp [splitSemi]
  | cons c cs ih =>
    have hc : ¬ c = ';' := fun h => hm (by simp [h])
    have hcs : ';' ∉ cs := fun h => hm (List.mem_cons_of_mem _ h)
    simp [splitSemi, hc, ih hcs]

lemma lastGroup_of_no_newline {p : List Char} (h : '\n' ∉ p) : lastGroup p = some p := by
  unfold lastGroup
  have hd : p.dropWhile (fun c => c != '\n') = [] := by
    rw [List.dropWhile_eq_nil_iff]
    intro x hx
    rw [bne_iff_ne]
    exact fun hxx => h (hxx ▸ hx)
  rw [hd]

lemma lastGroup_trailing {q : List Char} (h : '\n' ∉ q) :
    lastGroup (q ++ ['\n']) = some q := by
  unfold lastGroup
  have hall : ∀ a ∈ q, (a != '\n') = true := by
    intro a ha
    rw [bne_iff_ne]
    exact fun haa => h (haa ▸ ha)
  rw [List.dropWhile_append_of_pos hall]
  simp [List.dropWhile, List.takeWhile_append_of_pos hall, List.takeWhile]

lemma lastGroup_none_of_long {p : List Char}
    (h : 2 ≤ (p.dropWhile (fun c => c != '\n')).length) : lastGroup p = none := by
  unfold lastGroup
  cases hD : p.dropWhile (fun c => c != '\n') with
  | nil => simp [hD] at h
  | cons x s =>
    cases s with
    | nil => simp [hD] at h
    | cons y t => split <;> simp_all

lemma lastGroup_mid_newline (a b : List Char) (hb : b ≠ []) :
    lastGroup (a ++ '\n' :: b) = none := by
  apply lastGroup_none_of_long
  have hblen : 0 < b.length := List.length_pos.mpr hb
  have hcons : List.dropWhile (fun c => c != '\n') ('\n' :: b) = '\n' :: b := by
    simp [List.dropWhile_cons]
  rw [List.dropWhile_append]
  by_cases he : (a.dropWhile (fun c => c != '\n')).isEmpty
  · rw [if_pos he, hcons]
    simp only [List.length_cons]
    omega
  · rw [if_neg he]
    simp only [List.length_append, List.length_cons]
    omega

/-- The regex on a string of the shape
`data:image/<sub>;base64,<payload>` with `<sub>` non-empty and
semicolon-free: the match reduces to the `(.*)$` rule on the payload. -/
lemma parseDataUri_shape (s : String) (msub payload : List Char)
    (hs : s.toList = "data:image/".toList ++ (msub ++ ';' :: ("base64,".toList ++ payload)))
    (hm : msub ≠ []) (hsemi : ';' ∉ msub) :
    parseDataUri s = (lastGroup payload).map (fun g => ("image/" ++ String.mk msub, g)) := by
  have hne : msub.isEmpty = false := by
    cases msub with
    | nil => exact absurd rfl hm
    | cons a l => rfl
  unfold parseDataUri
  rw [hs]
  simp only [stripLit_self, splitSemi_append _ _ hsemi, hne, Bool.false_eq_true, if_false]

/-- The regex on `data:image/png;base64,<p>` for a newline-free `p`. -/
lemma parseDataUri_png (p : String) (hnl : '\n' ∉ p.toList) :
    parseDataUri ("data:image/png;base64," ++ p) = some ("image/png", p.toList) := by
  have hdata : ("data:image/png;base64," ++ p).toList
      = "data:image/".toList ++ (['p', 'n', 'g'] ++ ';' :: ("base64,".toList ++ p.toList)) := by
    have h22 : "data:image/png;base64,".toList
        = "data:image/".toList ++ (['p', 'n', 'g'] ++ ';' :: "base64,".toList) := by decide
    rw [show ("data:image/png;base64," ++ p).toList
        = "data:image/png;base64,".toList ++ p.toList from rfl, h22]
    simp [List.append_assoc]
  rw [parseDataUri_shape _ _ _ hdata (by decide) (by decide), lastGroup_of_no_newline hnl]
  rfl

lemma parseDataUri_none_of_no_lead (s : String)
    (h : ∀ t, s.toList ≠ "data:image/".toList ++ t) : parseDataUri s = none := by
  unfold parseDataUri
  cases hS : stripLit "data:image/".toList s.toList with
  | none => rfl
  | some rest => exact absurd (stripLit_eq_append hS) (h rest)

lemma body_nonempty_of_field {data : Body} {k v : String} (h : dictGet data k = some v) :
    data.isEmpty = false := by
  cases data with
  | nil => simp [dictGet] at h
  | cons a l => rfl

lemma upload_photo_invalid_image (store : Store) (data : Body) (s img : String)
    (sendFail : Option String) (uid : Int)
    (hs : dictGet data "session" = some s) (hs0 : s ≠ "")
    (hi : dictGet data "image" = some img) (hi0 : img ≠ "")
    (hu : selectUserId store s = some uid)
    (hparse : parseDataUri img = none) :
    upload_photo store (some data) sendFail = ⟨.err 400 "invalid image data" none, store, []⟩ := by
  have hne := body_nonempty_of_field hs
  unfold upload_photo
  simp [hne, hs, hi, hs0, hi0, hu, hparse]

/-- C5: a request whose (present, non-empty) session id is not in the store
is answered `404 invalid session`, the table is unchanged and `send_photo`
is never invoked. -/
theorem invalid_session_no_delivery (store : Store) (data : Body) (s img : String)
    (sendFail : Option String)
    (hs : dictGet data "session" = some s) (hs0 : s ≠ "")
    (hi : dictGet data "image" = some img) (hi0 : img ≠ "")
    (hnone : selectUserId store s = none) :
    upload_photo store (some data) sendFail = ⟨.err 404 "invalid session" none, store, []⟩ := by
  have hne := body_nonempty_of_field hs
  unfold upload_photo
  simp [hne, hs, hi, hs0, hi0, hnone]

/-- C5 witness: an unknown session id against the empty store. -/
theorem invalid_session_no_delivery_witness :
    upload_photo [] (some [("session", "zzz"), ("image", "data:image/png;base64,AA==")]) none
      = ⟨.err 404 "invalid session" none, [], []⟩ :=
  invalid_session_no_delivery [] [("session", "zzz"), ("image", "data:image/png;base64,AA==")]
    "zzz" "data:image/png;base64,AA==" none (by decide) (by decide) (by decide) (by decide)
    (by decide)

/-- C3: a request with a stored session and a `data:image/png;base64,<p>`
image whose payload decodes sends exactly one photo with exactly the decoded
bytes to the session's user with the fixed caption, and answers `200 ok`. -/
theorem relay_delivers_decoded_photo (store : Store) (data : Body) (s p : String) (uid : Int)
    (bytes : List Nat)
    (hs : dictGet data "session" = some s) (hs0 : s ≠ "")
    (hi : dictGet data "image" = some ("data:image/png;base64," ++ p))
    (hu : selectUserId store s = some uid)
    (hnl : '\n' ∉ p.toList)
    (hd : b64decode p.toList = .ok bytes) :
    upload_photo store (some data) none
      = ⟨.ok200, store, [⟨uid, bytes, "📸 New snapshot from camera link"⟩]⟩ := by
  have hne := body_nonempty_of_field hs
  have himg0 : ("data:image/png;base64," ++ p) ≠ "" := by
    intro h
    have h2 : "data:image/png;base64,".data ++ p.data = "".data := by
      rw [← String.data_append, h]
    rw [show ("".data) = [] from rfl, List.append_eq_nil] at h2
    exact absurd h2.1 (by decide)
  have hp := parseDataUri_png p hnl
  have hd2 : b64decode p.data = .ok bytes := hd
  unfold upload_photo
  simp [hne, hs, hi, hs0, himg0, hu, hp, hd2]

/-- C3 witness: the spec's example payload decodes to the PNG header bytes
and is delivered once to user 42. -/
theorem relay_delivers_decoded_photo_witness :
    upload_photo [⟨42, "sess1", "ref"⟩]
        (some [("session", "sess1"), ("image", "data:image/png;base64,iVBORw0KGgo=")]) none
      = ⟨.ok200, [⟨42, "sess1", "ref"⟩],
          [⟨42, [137, 80, 78, 71, 13, 10, 26, 10], "📸 New snapshot from camera link"⟩]⟩ :=
  relay_delivers_decoded_photo [⟨42, "sess1", "ref"⟩]
    [("session", "sess1"), ("image", "data:image/png;base64,iVBORw0KGgo=")]
    "sess1" "iVBORw0KGgo=" 42 [137, 80, 78, 71, 13, 10, 26, 10]
    (by decide) (by decide) (by decide) (by decide) (by decide) (by rfl)

/-- C6: a 2xx response that is not JSON, or lacks a truthy `success` flag or
a truthy `file_url`, resolves to a failed outcome with no error detail, and
the fallback message then carries empty upload-error text; a transport
failure resolves to a failed outcome carrying the transport detail. -/
theorem ambiguous_remote_silent_fallback :
    (∀ (d : String), resolveUpload d (.response true .notJson) = ⟨false, d, none⟩)
    ∧ (∀ (d : String) (succ : Bool) (fu : Option String), (succ && pyTruthyOpt fu) = false →
        resolveUpload d (.response true (.json succ fu)) = ⟨false, d, none⟩)
    ∧ (∀ (d e : String), resolveUpload d (.transportError e) = ⟨false, d, some e⟩)
    ∧ (∀ (host : String) (uid ts : Int) (remote : RemoteResult) (tok : Nat → String)
        (store : Store),
        (resolveUpload (defaultPublicUrl host (mkFilename uid ts)) remote).uploaded_remote
          = false →
        (resolveUpload (defaultPublicUrl host (mkFilename uid ts)) remote).upload_error = none →
        (image_handler_core host uid ts remote tok store).reply
          = .fallback (host ++ "/i/" ++ tok 8) (defaultPublicUrl host (mkFilename uid ts)) "") := by
  refine ⟨fun d => rfl, ?_, fun d e => rfl, ?_⟩
  · intro d succ fu hc
    simp [resolveUpload, hc]
  · intro host uid ts remote tok store h1 h2
    have hurl := resolveUpload_not_remote _ _ h1
    unfold image_handler_core
    simp [h1, h2, hurl, errText]

/-- C6 witness: a JSON body with no `file_url` falls back silently, and a
non-JSON 2xx body produces the fallback reply with empty error text. -/
theorem ambiguous_remote_silent_fallback_witness :
    resolveUpload "http://h/u/f.jpg" (.response true (.json true none))
      = ⟨false, "http://h/u/f.jpg", none⟩
    ∧ (image_handler_core "http://h" 1 2 (.response true .notJson) (fun _ => "tok") []).reply
      = .fallback ("http://h" ++ "/i/" ++ "tok") (defaultPublicUrl "http://h" (mkFilename 1 2)) "" :=
  ⟨ambiguous_remote_silent_fallback.2.1 "http://h/u/f.jpg" true none (by decide),
   ambiguous_remote_silent_fallback.2.2.2 "http://h" 1 2 (.response true .notJson)
     (fun _ => "tok") [] (by decide) (by decide)⟩

/-- C8: the upload resolution is a total function whose outcome always has a
defined public URL — the default one, built deterministically from host and
filename before and independently of the attempt, on every non-success path,
and the remote URL on success — and an unexpected failure in the photo
handler is answered with the generic error reply instead of propagating. -/
theorem upload_resolution_never_raises :
    (∀ (d : String) (r : RemoteResult),
        (resolveUpload d r).uploaded_remote = false → (resolveUpload d r).image_url = d)
    ∧ (∀ (d : String) (r : RemoteResult),
        (resolveUpload d r).image_url = d
        ∨ ∃ u, u ≠ "" ∧ r = .response true (.json true (some u))
            ∧ (resolveUpload d r).image_url = u)
    ∧ (∀ (host filename : String), defaultPublicUrl host filename = host ++ "/uploads/" ++ filename)
    ∧ (∀ (e host : String) (uid ts : Int) (remote : RemoteResult) (tok : Nat → String)
        (store : Store),
        image_handler (some e) host uid ts remote tok store
          = (store, .genericError ("❌ Error: " ++ e))) := by
  refine ⟨fun d r => resolveUpload_not_remote d r, ?_, fun h f => rfl,
    fun e h uid ts r tok st => rfl⟩
  intro d r
  cases r with
  | transportError e => exact Or.inl rfl
  | response ok body =>
    cases ok with
    | false => exact Or.inl rfl
    | true =>
      cases body with
      | notJson => exact Or.inl rfl
      | json succ fu =>
        cases succ with
        | false => exact Or.inl (by simp [resolveUpload, pyTruthyOpt])
        | true =>
          cases fu with
          | none => exact Or.inl (by simp [resolveUpload, pyTruthyOpt])
          | some u =>
            by_cases hu : u = ""
            · subst hu
              exact Or.inl (by simp [resolveUpload, pyTruthyOpt])
            · exact Or.inr ⟨u, hu, rfl, by simp [resolveUpload, pyTruthyOpt, hu]⟩

/-- C8 witness: a malformed 2xx body keeps the default URL, and a raised
exception at concrete inputs yields the generic error reply. -/
theorem upload_resolution_never_raises_witness :
    (resolveUpload "http://h/uploads/f.jpg" (.response true .notJson)).image_url
      = "http://h/uploads/f.jpg"
    ∧ image_handler (some "boom") "http://h" 1 2 (.response true .notJson) (fun _ => "tok") []
      = ([], .genericError ("❌ Error: " ++ "boom")) :=
  ⟨upload_resolution_never_raises.1 "http://h/uploads/f.jpg" (.response true .notJson) (by decide),
   upload_resolution_never_raises.2.2.2 "boom" "http://h" 1 2 (.response true .notJson)
     (fun _ => "tok") []⟩


/-! The spec-side response mapping for the validation chain. -/

/-- Python truthiness of the parsed request body (`if not data`): a parse
failure and an empty object are both falsy. -/
def bodyTruthy : Option Body → Bool
  | none => false
  | some d => !d.isEmpty

/-- Spec-side field requirement: `session` and `image` both present and
non-empty (`if not session or not image_data`). -/
def requiredFields : Option Body → Option (String × String)
  | none => none
  | some d =>
    match dictGet d "session", dictGet d "image" with
    | some s, some i => if s != "" && i != "" then some (s, i) else none
    | _, _ => none

/-- The response mapping of `/upload_photo` written as the amended claim's
chain of checks: truthy body, truthy required fields, known session,
data-URI shape, base64 decode, delivery; the first failing check decides the
status and error string. -/
def relaySpecResp (store : Store) (body : Option Body) (sendFail : Option String) : HttpResp :=
  if !bodyTruthy body then .err 400 "invalid json" none
  else
    match requiredFields body with
    | none => .err 400 "missing fields" none
    | some (s, img) =>
      match selectUserId store s with
      | none => .err 404 "invalid session" none
      | some _ =>
        match parseDataUri img with
        | none => .err 400 "invalid image data" none
        | some (_m, b64) =>
          match b64decode b64 with
          | .error e => .err 400 "base64 decode failed" (some e)
          | .ok _ =>
            match sendFail with
            | some e => .err 500 "telegram send failed" (some e)
            | none => .ok200

/-- C4 (amended): the handler's response is exactly the fixed validation
chain — a falsy body (unparseable, or parsing to a falsy value such as the
empty object) gives `400 invalid json`; a missing or empty `session` or
`image` field gives `400 missing fields`; then `404 invalid session`,
`400 invalid image data`, `400 base64 decode failed`, `500 telegram send
failed` with detail; each failure is terminal, and at most one delivery
attempt is ever made (no retry). -/
theorem relay_validation_order :
    (∀ (store : Store) (body : Option Body) (sendFail : Option String),
        (upload_photo store body sendFail).resp = relaySpecResp store body sendFail)
    ∧ (∀ (store : Store) (body : Option Body) (sendFail : Option String),
        (upload_photo store body sendFail).calls.length ≤ 1) := by
  constructor
  · intro store body sendFail
    cases body with
    | none => rfl
    | some data =>
      unfold upload_photo relaySpecResp bodyTruthy requiredFields
      cases hne : data.isEmpty with
      | true => simp [hne]
      | false =>
        simp only [hne, Bool.not_false, Bool.not_true, if_true, if_false, Bool.false_eq_true]
        cases hs : dictGet data "session" with
        | none =>
          cases hi : dictGet data "image" with
          | none => simp [hs, hi]
          | some i => simp [hs, hi]
        | some s =>
          cases hi : dictGet data "image" with
          | none => simp [hs, hi]
          | some i =>
            simp only [hs, hi]
            by_cases h1 : s = ""
            · simp [h1]
            · by_cases h2 : i = ""
              · simp [h1, h2]
              · cases hu : selectUserId store s with
                | none => simp [h1, h2, hu]
                | some uid =>
                  cases hp : parseDataUri i with
                  | none => simp [h1, h2, hu, hp]
                  | some mb =>
                    obtain ⟨m, b⟩ := mb
                    cases hb : b64decode b with
                    | error e => simp [h1, h2, hu, hp, hb]
                    | ok bs =>
                      cases sendFail with
                      | none => simp [h1, h2, hu, hp, hb]
                      | some e => simp [h1, h2, hu, hp, hb]
  · intro store body sendFail
    unfold upload_photo
    repeat' split
    all_goals simp

/-- C4 counterexample: the empty JSON object `{}` parses as JSON and lacks
the required fields, so the claimed mapping demands `400 missing fields`,
but the code's falsiness test answers `400 invalid json`. -/
theorem relay_validation_order_cex :
    (upload_photo [] (some []) none).resp = .err 400 "invalid json" none
    ∧ (HttpResp.err 400 "invalid json" none ≠ .err 400 "missing fields" none) :=
  ⟨rfl, by decide⟩

/-- C10 (amended): with a valid session and truthy fields, an image value
not starting with the literal `data:image/` (in particular any data URI
whose mime type does not begin with `image/`) is rejected `400 invalid
image data`; so is a payload containing a newline anywhere except as a
single final character; but a payload whose sole newline is its final
character is accepted by the regex with the trailing newline stripped. -/
theorem strict_data_uri_shape :
    (∀ (store : Store) (data : Body) (s img : String) (uid : Int) (sendFail : Option String),
        dictGet data "session" = some s → s ≠ "" →
        dictGet data "image" = some img → img ≠ "" →
        selectUserId store s = some uid →
        (∀ t, img.toList ≠ "data:image/".toList ++ t) →
        upload_photo store (some data) sendFail
          = ⟨.err 400 "invalid image data" none, store, []⟩)
    ∧ (∀ (store : Store) (data : Body) (s img : String) (uid : Int) (sendFail : Option String)
        (msub a b : List Char),
        dictGet data "session" = some s → s ≠ "" →
        dictGet data "image" = some img → img ≠ "" →
        selectUserId store s = some uid →
        img.toList
          = "data:image/".toList ++ (msub ++ ';' :: ("base64,".toList ++ (a ++ '\n' :: b))) →
        msub ≠ [] → ';' ∉ msub → b ≠ [] →
        upload_photo store (some data) sendFail
          = ⟨.err 400 "invalid image data" none, store, []⟩)
    ∧ (∀ (p : String), '\n' ∉ p.toList →
        parseDataUri ("data:image/png;base64," ++ p ++ "\n")
          = some ("image/png", p.toList)) := by
  refine ⟨?_, ?_, ?_⟩
  · intro store data s img uid sendFail hs hs0 hi hi0 hu hpre
    exact upload_photo_invalid_image store data s img sendFail uid hs hs0 hi hi0 hu
      (parseDataUri_none_of_no_lead img hpre)
  · intro store data s img uid sendFail msub a b hs hs0 hi hi0 hu himg hm hsemi hb
    refine upload_photo_invalid_image store data s img sendFail uid hs hs0 hi hi0 hu ?_
    rw [parseDataUri_shape img msub (a ++ '\n' :: b) himg hm hsemi,
      lastGroup_mid_newline a b hb]
    rfl
  · intro p hnl
    have hdata : ("data:image/png;base64," ++ p ++ "\n").toList
        = "data:image/".toList
          ++ (['p', 'n', 'g'] ++ ';' :: ("base64,".toList ++ (p.toList ++ ['\n']))) := by
      have h22 : "data:image/png;base64,".toList
          = "data:image/".toList ++ (['p', 'n', 'g'] ++ ';' :: "base64,".toList) := by decide
      show "data:image/png;base64,".toList ++ p.toList ++ ['\n'] = _
      rw [h22]
      simp [List.append_assoc]
    rw [parseDataUri_shape _ _ _ hdata (by decide) (by decide), lastGroup_trailing hnl]
    rfl

/-- C10 counterexample: with a valid session, the payload whose single
newline is its final character is accepted (the regex's `$` matches before a
trailing newline), so the request is answered `200`, not `400 invalid image
data` as the claim demands for any payload containing a newline. -/
theorem strict_data_uri_shape_cex :
    (upload_photo [⟨7, "s", "r"⟩]
        (some [("session", "s"), ("image", "data:image/png;base64,iVBORw0KGgo=\n")]) none).resp
      = .ok200
    ∧ (HttpResp.ok200 ≠ .err 400 "invalid image data" none) :=
  ⟨rfl, by decide⟩

/-- C10 witness: a `text/plain` data URI and a mid-payload newline are both
rejected with `400 invalid image data`; the trailing-newline payload is
accepted with the newline stripped. -/
theorem strict_data_uri_shape_witness :
    upload_photo [⟨7, "s", "r"⟩]
        (some [("session", "s"), ("image", "data:text/plain;base64,AAAA")]) none
      = ⟨.err 400 "invalid image data" none, [⟨7, "s", "r"⟩], []⟩
    ∧ upload_photo [⟨7, "s", "r"⟩]
        (some [("session", "s"), ("image", "data:image/png;base64,AB\nCD")]) none
      = ⟨.err 400 "invalid image data" none, [⟨7, "s", "r"⟩], []⟩
    ∧ parseDataUri ("data:image/png;base64," ++ "iVBORw0KGgo=" ++ "\n")
      = some ("image/png", "iVBORw0KGgo=".toList) :=
  ⟨strict_data_uri_shape.1 [⟨7, "s", "r"⟩] [("session", "s"), ("image", "data:text/plain;base64,AAAA")]
      "s" "data:text/plain;base64,AAAA" 7 none (by decide) (by decide) (by decide) (by decide)
      (by decide)
      (by
        intro t h
        have h5 : ("data:text/plain;base64,AAAA".toList)[5]?
            = ("data:image/".toList ++ t)[5]? := by rw [h]
        rw [List.getElem?_append_left (by decide)] at h5
        exact absurd h5 (by decide)),
   strict_data_uri_shape.2.1 [⟨7, "s", "r"⟩]
      [("session", "s"), ("image", "data:image/png;base64,AB\nCD")]
      "s" "data:image/png;base64,AB\nCD" 7 none ['p', 'n', 'g'] ['A', 'B'] ['C', 'D']
      (by decide) (by decide) (by decide) (by decide) (by decide) (by decide) (by decide)
      (by decide) (by decide),
   strict_data_uri_shape.2.2 "iVBORw0KGgo=" (by decide)⟩

end ImageShareBot
